import Mathlib

/-!
# Verification of the JUIT-OLX listing service

Shallow embedding of the two server implementations of the repository:

* Backend A (`server.js`, the MongoDB/Cloudinary variant): products are
  documents of a collection; handlers are modelled as pure functions from the
  collection (a `List Product`) and the request to a response and the new
  collection.
* Backend B (`sever.js`, the GitHub-file-backed variant): all listings live in
  one `products.json` file of a remote repository; every write is conditioned
  on the file's current version token (sha).  The file is modelled as
  `Option GhFile` (the file may not exist yet) where `GhFile` carries the
  parsed products and an abstract version counter in place of the sha.

Identifier generation (`ObjectId`, `Date.now()`) and clock reads are modelled
by explicit parameters `freshId` / `now`.
-/

/-! ## JavaScript string primitives -/

/-- The whitespace characters recognised by JavaScript `String.prototype.trim`
(the common ASCII ones plus NBSP and the BOM; other Unicode space code points
never occur in the strings this development evaluates). -/
def isJsWhitespace (c : Char) : Bool :=
  c == ' ' || c == '\t' || c == '\n' || c == '\x0d' || c == '\x0b' ||
  c == '\x0c' || c == ' ' || c == '﻿'

/-- JavaScript `String.prototype.trim`: drop leading and trailing whitespace. -/
def jsTrim (s : String) : String :=
  ⟨((s.data.dropWhile isJsWhitespace).reverse.dropWhile isJsWhitespace).reverse⟩

/-- Accumulate a decimal digit list into a number. -/
def digitsToNat (l : List Char) : Nat :=
  l.foldl (fun a c => a * 10 + (c.toNat - 48)) 0

/-- The digit-consuming part of JavaScript `parseInt`: take the leading run of
decimal digits; no digit at all yields `NaN` (modelled as `none`). -/
def parseIntDigits (l : List Char) : Option Nat :=
  let ds := l.takeWhile (·.isDigit)
  if ds.isEmpty then none else some (digitsToNat ds)

/-- JavaScript `parseInt(s)` (radix 10): skip leading whitespace, read an
optional sign, then the longest prefix of decimal digits; `NaN` is `none`. -/
def jsParseInt (s : String) : Option Int :=
  match s.data.dropWhile isJsWhitespace with
  | '-' :: rest => (parseIntDigits rest).map (fun n => -(n : Int))
  | '+' :: rest => (parseIntDigits rest).map (fun n => (n : Int))
  | l => (parseIntDigits l).map (fun n => (n : Int))

/-- `/^91\d{10}$/.test s`: the string is exactly the two characters `91`
followed by ten decimal digits. -/
def whatsappTest (s : String) : Bool :=
  match s.data with
  | '9' :: '1' :: rest => rest.length == 10 && rest.all (·.isDigit)
  | _ => false

/-- Truthiness of an optional query/body string: JavaScript treats `undefined`
and the empty string as falsy. -/
def truthy : Option String → Bool
  | none => false
  | some s => s ≠ ""

/-- `lp` is a prefix of `l` (boolean, on character lists). -/
def isPrefixB : List Char → List Char → Bool
  | [], _ => true
  | _ :: _, [] => false
  | a :: as, b :: bs => a == b && isPrefixB as bs

/-- `needle` occurs as a contiguous sublist of `hay`. -/
def hasSub (needle : List Char) : List Char → Bool
  | [] => needle.isEmpty
  | c :: t => isPrefixB needle (c :: t) || hasSub needle t

/-- Case-insensitive substring check, modelling the Mongo
`$regex: term, $options: 'i'` filter for a literal search term. -/
def containsCI (needle hay : String) : Bool :=
  hasSub needle.toLower.data hay.toLower.data

/-! ## Backend A: data model (`productSchema`) -/

/-- A document of the `Product` collection.  `id` stands for the ObjectId,
`dateAdded` for the creation timestamp. -/
structure Product where
  id : Nat
  name : String
  price : Int
  seller : String
  whatsapp : String
  condition : String
  description : String
  imagePath : String
  imagePublicId : Option String
  dateAdded : Nat
  isActive : Bool
  deriving Repr, DecidableEq

/-- The `condition` enum of the schema. -/
def condEnum (s : String) : Bool :=
  ["Brand New", "Like New", "Excellent", "Good", "Fair"].contains s

/-- The document-level validation Mongoose runs on `save()`: required
(non-empty after the schema's `trim`) strings, `price ≥ 1`, the whatsapp
regex, and the condition enum. -/
def mongooseValid (p : Product) : Bool :=
  p.name ≠ "" && p.price ≥ 1 && p.seller ≠ "" && whatsappTest p.whatsapp &&
  condEnum p.condition && p.description ≠ "" && p.imagePath ≠ ""

/-- The body shapes a Backend A handler responds with. -/
inductive ABody where
  | error (msg : String)
  | product (p : Product)
  | products (ps : List Product)
  | message (msg : String)
  | stats (totalProducts : Nat) (totalSellers : Option Nat) (averagePrice : Rat)
  deriving Repr, DecidableEq

/-- A Backend A HTTP response: status code and JSON body. -/
structure AResp where
  status : Nat
  body : ABody
  deriving Repr, DecidableEq

/-! ## Backend A: GET /api/products (query, filter, sort) -/

/-- The query string of `GET /api/products`. -/
structure AQuery where
  search : Option String := none
  minPrice : Option String := none
  maxPrice : Option String := none
  condition : Option String := none
  sort : Option String := none
  deriving Repr, DecidableEq

/-- `if (search) query.$or = [...]`: when the search term is truthy, at least
one of name, description, seller must contain it case-insensitively. -/
def matchesSearch (search : Option String) (p : Product) : Bool :=
  match search with
  | none => true
  | some s =>
    if s = "" then true
    else containsCI s p.name || containsCI s p.description || containsCI s p.seller

/-- One bound of the price filter: a truthy bound is `parseInt`-ed; a `NaN`
bound compares false against every price (Mongo comparison with NaN). -/
def boundOk (cmp : Int → Int → Bool) (bound : Option String) (price : Int) : Bool :=
  if truthy bound then
    match jsParseInt (bound.getD "") with
    | none => false
    | some b => cmp b price
  else true

/-- The price-range filter, built only when `minPrice || maxPrice` is truthy. -/
def priceOk (minP maxP : Option String) (price : Int) : Bool :=
  if truthy minP || truthy maxP then
    boundOk (fun b x => b ≤ x) minP price && boundOk (fun b x => x ≤ b) maxP price
  else true

/-- `if (condition) query.condition = condition`. -/
def conditionOk (condition : Option String) (p : Product) : Bool :=
  if truthy condition then p.condition = condition.getD "" else true

/-- The Mongo find filter of `GET /api/products`: active documents matching
search, price range, and condition. -/
def queryFilter (q : AQuery) (p : Product) : Bool :=
  p.isActive && matchesSearch q.search p && priceOk q.minPrice q.maxPrice p.price &&
  conditionOk q.condition p

/-- The four sort options of the handler. -/
inductive SortKey where
  | dateDesc
  | priceAsc
  | priceDesc
  | nameAsc
  deriving Repr, DecidableEq

/-- `let sortOption = { dateAdded: -1 }` overwritten by the three `if`s; the
three tested values are mutually exclusive, so sequential reassignment equals
this cascade. -/
def sortOption (sort : Option String) : SortKey :=
  if sort = some "price_low" then .priceAsc
  else if sort = some "price_high" then .priceDesc
  else if sort = some "name" then .nameAsc
  else .dateDesc

/-- The document order requested from Mongo for each sort key. -/
def keyRel : SortKey → Product → Product → Prop
  | .dateDesc => fun a b => b.dateAdded ≤ a.dateAdded
  | .priceAsc => fun a b => a.price ≤ b.price
  | .priceDesc => fun a b => b.price ≤ a.price
  | .nameAsc => fun a b => a.name ≤ b.name

instance keyRelDecidable : (k : SortKey) → DecidableRel (keyRel k)
  | .dateDesc, a, b => inferInstanceAs (Decidable (b.dateAdded ≤ a.dateAdded))
  | .priceAsc, a, b => inferInstanceAs (Decidable (a.price ≤ b.price))
  | .priceDesc, a, b => inferInstanceAs (Decidable (b.price ≤ a.price))
  | .nameAsc, a, b => inferInstanceAs (Decidable (a.name ≤ b.name))

instance keyRelTotal (k : SortKey) : IsTotal Product (keyRel k) := by
  cases k <;> exact ⟨fun a b => by
    first
    | exact Nat.le_total _ _
    | exact Int.le_total _ _
    | exact le_total _ _⟩

instance keyRelTrans (k : SortKey) : IsTrans Product (keyRel k) := by
  cases k <;> exact ⟨fun a b c h1 h2 => by
    first
    | exact Nat.le_trans h2 h1
    | exact le_trans h2 h1
    | exact le_trans h1 h2⟩

/-- `Product.find(query).sort(sortOption)`: the filtered documents in the
requested order (modelled with insertion sort, which realises any stable
Mongo sort). -/
def queryResults (db : List Product) (q : AQuery) : List Product :=
  List.insertionSort (keyRel (sortOption q.sort)) (db.filter (queryFilter q))

/-- `GET /api/products`. -/
def getProducts (db : List Product) (q : AQuery) : AResp :=
  ⟨200, .products (queryResults db q)⟩

/-- `GET /api/products/:id`: `findById`, 404 when absent. -/
def getProductById (db : List Product) (id : Nat) : AResp :=
  match db.find? (fun p => p.id = id) with
  | none => ⟨404, .error "Product not found"⟩
  | some p => ⟨200, .product p⟩

/-! ## Backend A: create, update, delete, stats -/

/-- The multer/Cloudinary upload attached to a multipart request: hosted URL
and public id of the stored image. -/
structure AFile where
  path : String
  filename : String
  deriving Repr, DecidableEq

/-- The multipart body of `POST /api/products` (form-data fields arrive as
strings; an absent field is the empty string, falsy either way). -/
structure ACreateReq where
  name : String
  price : String
  seller : String
  whatsapp : String
  condition : String
  description : String
  file : Option AFile
  deriving Repr, DecidableEq

/-- `!name || !price || !seller || !whatsapp || !condition || !description`:
an absent form field is the empty string, falsy either way. -/
def missingFields (req : ACreateReq) : Bool :=
  req.name == "" || req.price == "" || req.seller == "" || req.whatsapp == "" ||
  req.condition == "" || req.description == ""

/-- The `productData` object of the multipart create, plus the generated id
and the schema defaults (`dateAdded := now`, `isActive := true`). -/
def buildProduct (req : ACreateReq) (f : AFile) (pv : Int) (freshId now : Nat) :
    Product :=
  { id := freshId, name := jsTrim req.name, price := pv,
    seller := jsTrim req.seller, whatsapp := jsTrim req.whatsapp,
    condition := req.condition, description := jsTrim req.description,
    imagePath := f.path, imagePublicId := some f.filename,
    dateAdded := now, isActive := true }

/-- `POST /api/products` (multipart).  `freshId` is the ObjectId Mongo mints,
`now` the creation instant.  A validation failure returns 400 before any
write; a `save()` rejection (schema violation or NaN price cast) is caught and
answered 500 with the collection unchanged (the handler also destroys the
uploaded Cloudinary image then — an external effect outside the store). -/
def postProduct (db : List Product) (req : ACreateReq) (freshId now : Nat) :
    AResp × List Product :=
  if missingFields req then
    (⟨400, .error "All fields are required"⟩, db)
  else if req.file.isNone then
    (⟨400, .error "Product image is required"⟩, db)
  else if !whatsappTest req.whatsapp then
    (⟨400, .error "Invalid WhatsApp number format"⟩, db)
  else
    match req.file, jsParseInt req.price with
    | some f, some pv =>
      if mongooseValid (buildProduct req f pv freshId now) then
        (⟨201, .product (buildProduct req f pv freshId now)⟩,
         db ++ [buildProduct req f pv freshId now])
      else (⟨500, .error "Failed to save product"⟩, db)
    | _, none => (⟨500, .error "Failed to save product"⟩, db)
    | none, _ => (⟨500, .error "Failed to save product"⟩, db)

/-- The JSON body of `POST /api/products/base64`. -/
structure B64Req where
  name : String
  price : String
  seller : String
  whatsapp : String
  condition : String
  description : String
  imageBase64 : String
  deriving Repr, DecidableEq

/-- `!name || ... || !imageBase64` for the base64 create. -/
def missingFieldsB64 (req : B64Req) : Bool :=
  req.name == "" || req.price == "" || req.seller == "" || req.whatsapp == "" ||
  req.condition == "" || req.description == "" || req.imageBase64 == ""

/-- The `productData` object of the base64 create (`url`, `pid` are the
Cloudinary `secure_url` and `public_id`). -/
def buildProductB64 (req : B64Req) (url pid : String) (pv : Int)
    (freshId now : Nat) : Product :=
  { id := freshId, name := jsTrim req.name, price := pv,
    seller := jsTrim req.seller, whatsapp := jsTrim req.whatsapp,
    condition := req.condition, description := jsTrim req.description,
    imagePath := url, imagePublicId := some pid,
    dateAdded := now, isActive := true }

/-- `POST /api/products/base64`.  `upload` is the Cloudinary upload outcome:
`some (secure_url, public_id)` on success, `none` when the upload throws
(caught, 500, nothing persisted). -/
def postProductBase64 (db : List Product) (req : B64Req)
    (upload : Option (String × String)) (freshId now : Nat) : AResp × List Product :=
  if missingFieldsB64 req then
    (⟨400, .error "All fields including image are required"⟩, db)
  else if !whatsappTest req.whatsapp then
    (⟨400, .error "Invalid WhatsApp number format"⟩, db)
  else
    match upload, jsParseInt req.price with
    | some (url, pid), some pv =>
      if mongooseValid (buildProductB64 req url pid pv freshId now) then
        (⟨201, .product (buildProductB64 req url pid pv freshId now)⟩,
         db ++ [buildProductB64 req url pid pv freshId now])
      else (⟨500, .error "Failed to save product"⟩, db)
    | none, _ => (⟨500, .error "Failed to save product"⟩, db)
    | _, none => (⟨500, .error "Failed to save product"⟩, db)

/-- A `PUT /api/products/:id` JSON body: every schema path may be supplied;
`findByIdAndUpdate` `$set`s exactly the supplied ones. -/
structure UpdateBody where
  name : Option String := none
  price : Option Int := none
  seller : Option String := none
  whatsapp : Option String := none
  condition : Option String := none
  description : Option String := none
  imagePath : Option String := none
  imagePublicId : Option String := none
  dateAdded : Option Nat := none
  isActive : Option Bool := none
  deriving Repr, DecidableEq

/-- Apply an update body over a document (the schema's `trim` setters run on
updated string paths). -/
def applyUpdate (p : Product) (b : UpdateBody) : Product :=
  { id := p.id
    name := (b.name.map jsTrim).getD p.name
    price := b.price.getD p.price
    seller := (b.seller.map jsTrim).getD p.seller
    whatsapp := b.whatsapp.getD p.whatsapp
    condition := b.condition.getD p.condition
    description := (b.description.map jsTrim).getD p.description
    imagePath := b.imagePath.getD p.imagePath
    imagePublicId := (b.imagePublicId.map some).getD p.imagePublicId
    dateAdded := b.dateAdded.getD p.dateAdded
    isActive := b.isActive.getD p.isActive }

/-- `runValidators: true`: the schema validators on exactly the updated
paths. -/
def updateValid (b : UpdateBody) : Bool :=
  (match b.name with | none => true | some n => jsTrim n ≠ "") &&
  (match b.price with | none => true | some v => v ≥ 1) &&
  (match b.seller with | none => true | some s => jsTrim s ≠ "") &&
  (match b.whatsapp with | none => true | some w => whatsappTest w) &&
  (match b.condition with | none => true | some c => condEnum c) &&
  (match b.description with | none => true | some d => jsTrim d ≠ "") &&
  (match b.imagePath with | none => true | some ip => ip ≠ "")

/-- `PUT /api/products/:id`: 404 when the id is absent, 500 when a validator
rejects (update not applied), otherwise the updated document (`new: true`). -/
def putProduct (db : List Product) (id : Nat) (b : UpdateBody) :
    AResp × List Product :=
  match db.find? (fun p => p.id = id) with
  | none => (⟨404, .error "Product not found"⟩, db)
  | some p =>
    if updateValid b then
      (⟨200, .product (applyUpdate p b)⟩,
       db.map (fun q => if q.id = id then applyUpdate q b else q))
    else (⟨500, .error "Failed to update product"⟩, db)

/-- `DELETE /api/products/:id`: `findById`, 404 when absent; otherwise destroy
the Cloudinary image (external effect) and `findByIdAndDelete`. -/
def deleteProduct (db : List Product) (id : Nat) : AResp × List Product :=
  match db.find? (fun p => p.id = id) with
  | none => (⟨404, .error "Product not found"⟩, db)
  | some _ => (⟨200, .message "Product deleted successfully"⟩,
               db.eraseP (fun q => q.id = id))

/-- The distinct-seller count the spec describes for `/api/stats`. -/
def distinctSellerCount (db : List Product) : Nat :=
  (db.map (fun p => p.seller)).dedup.length

/-- `GET /api/stats`.  `totalSellers` is `Product.distinct('seller').length`:
the code reads `.length` off the *unawaited* Query object, which is
`undefined` — modelled as `none` (JSON serialisation then drops the field);
the awaited version would be `some (distinctSellerCount db)`.  `averagePrice`
is the aggregate mean over active documents, `0` when the pipeline yields no
row (`avgPrice[0]?.avgPrice || 0`). -/
def getStats (db : List Product) : AResp :=
  let active := db.filter (fun p => p.isActive)
  ⟨200, .stats active.length none
    (if active.length = 0 then 0
     else (active.map (fun p => (p.price : Rat))).sum / (active.length : Rat))⟩

/-! ## Backend B: the GitHub-file-backed variant (`sever.js`) -/

/-- An entry of `products.json`.  `id` is `Date.now()` at creation; `price`
is `parseInt(price)` and may be `NaN` (`none`, serialised as `null`);
`dateAdded` the creation instant. -/
structure FbProduct where
  id : Nat
  name : String
  price : Option Int
  seller : String
  whatsapp : String
  condition : String
  description : String
  imagePath : String
  dateAdded : Nat
  deriving Repr, DecidableEq

/-- The `products.json` file: its parsed contents and an abstract version
counter standing for the git blob sha. -/
structure GhFile where
  products : List FbProduct
  rev : Nat
  deriving Repr, DecidableEq

/-- The remote repository state: the file, or `none` when `products.json`
does not exist (a read then throws). -/
abbrev GhState := Option GhFile

/-- The GitHub contents `PUT`: creating a file succeeds only when it does not
exist and no sha is sent; overwriting succeeds only when the sent sha equals
the file's current version (else 409/422, modelled `none`).  A successful
write moves the version counter. -/
def ghPutContents (st : GhState) (ps : List FbProduct) (sha : Option Nat) :
    Option GhState :=
  match st, sha with
  | none, none => some (some ⟨ps, 0⟩)
  | none, some _ => none
  | some _, none => none
  | some f, some s => if s = f.rev then some (some ⟨ps, f.rev + 1⟩) else none

/-- The body shapes the Backend B handlers respond with (`success` is `true`
for `created`/`listing`/`deleted`, `false` for `failure`). -/
inductive BBody where
  | failure (msg : String)
  | created (msg : String) (product : FbProduct)
  | listing (products : List FbProduct) (source : String)
  | deleted (msg : String) (product : FbProduct)
  deriving Repr, DecidableEq

/-- A Backend B HTTP response. -/
structure BResp where
  status : Nat
  body : BBody
  deriving Repr, DecidableEq

/-- The three hard-coded demo listings returned when reading `products.json`
fails (`dateAdded` is the request instant `now`). -/
def demoProducts (now : Nat) : List FbProduct :=
  [{ id := 1, name := "Gaming Laptop RTX 3060", price := some 85000,
     seller := "Alex Kumar", whatsapp := "919876543210", condition := "Like New",
     description := "High-performance gaming laptop with RTX 3060 graphics card, perfect for gaming and development work.",
     imagePath := "https://images.unsplash.com/photo-1593642632823-8f785ba67e45?w=500&h=300&fit=crop",
     dateAdded := now },
   { id := 2, name := "Study Table with Storage", price := some 4500,
     seller := "Priya Singh", whatsapp := "919876543211", condition := "Good",
     description := "Wooden study desk with multiple drawers, perfect for dorm rooms and study spaces.",
     imagePath := "https://images.unsplash.com/photo-1586023492125-27b2c045efd7?w=500&h=300&fit=crop",
     dateAdded := now },
   { id := 3, name := "Mountain Bike Trek", price := some 25000,
     seller := "Rahul Sharma", whatsapp := "919876543212", condition := "Excellent",
     description := "Trek mountain bike in excellent condition, perfect for campus rides and weekend adventures.",
     imagePath := "https://images.unsplash.com/photo-1544191696-15693072ce6b?w=500&h=300&fit=crop",
     dateAdded := now }]

/-- `GET /api/products` (file-backed): the parsed file on success; on any read
failure the inner catch answers 200 with the demo data. -/
def fbGetProducts (st : GhState) (now : Nat) : BResp :=
  match st with
  | some f => ⟨200, .listing f.products "github"⟩
  | none => ⟨200, .listing (demoProducts now) "demo"⟩

/-- The JSON body of the file-backed `POST /api/products`. -/
structure FbCreateReq where
  name : String
  price : String
  seller : String
  whatsapp : String
  condition : String
  description : String
  imageUrl : String
  deriving Repr, DecidableEq

/-- `!name || ... || !imageUrl` for the file-backed create. -/
def missingFieldsFb (req : FbCreateReq) : Bool :=
  req.name == "" || req.price == "" || req.seller == "" || req.whatsapp == "" ||
  req.condition == "" || req.description == "" || req.imageUrl == ""

/-- The read phase of the file-backed create: current products and the sha to
condition the write on (`[]` and no sha when the file does not exist). -/
def fbReadPhase (st : GhState) : List FbProduct × Option Nat :=
  match st with
  | some f => (f.products, some f.rev)
  | none => ([], none)

/-- The new entry the file-backed create builds: `id` and `dateAdded` are both
taken from the clock. -/
def fbNewProduct (req : FbCreateReq) (now : Nat) : FbProduct :=
  { id := now, name := jsTrim req.name, price := jsParseInt req.price,
    seller := jsTrim req.seller, whatsapp := jsTrim req.whatsapp,
    condition := req.condition, description := jsTrim req.description,
    imagePath := req.imageUrl, dateAdded := now }

/-- The write phase of the file-backed create: one conditional `PUT` of
`newProduct :: current` (the code `unshift`s); a rejected write is caught and
answered 500, with no retry. -/
def fbWritePhase (st : GhState) (cur : List FbProduct) (sha : Option Nat)
    (newP : FbProduct) : BResp × GhState :=
  match ghPutContents st (newP :: cur) sha with
  | some st' => (⟨200, .created "Product added successfully" newP⟩, st')
  | none => (⟨500, .failure "Failed to add product"⟩, st)

/-- `POST /api/products` (file-backed): presence check, whatsapp check, then
read-modify-write against the same state.  The success response is sent with
`res.json(...)`, i.e. status 200. -/
def fbCreate (st : GhState) (req : FbCreateReq) (now : Nat) : BResp × GhState :=
  if missingFieldsFb req then
    (⟨400, .failure "All fields are required"⟩, st)
  else if !whatsappTest req.whatsapp then
    (⟨400, .failure "WhatsApp number should start with 91 followed by 10 digits"⟩, st)
  else
    fbWritePhase st (fbReadPhase st).1 (fbReadPhase st).2 (fbNewProduct req now)

/-- `DELETE /api/products/:id` (file-backed): reading a missing file throws
(caught, 500); `findIndex` with `===` against `parseInt(id)` (a NaN id matches
nothing); `splice` of the first match then one conditional write of the rest.
`find?`/`eraseP` realise exactly that first-match removal. -/
def fbDelete (st : GhState) (idStr : String) : BResp × GhState :=
  match st with
  | none => (⟨500, .failure "Failed to delete product"⟩, st)
  | some f =>
    match f.products.find? (fun p => jsParseInt idStr = some (p.id : Int)) with
    | none => (⟨404, .failure "Product not found"⟩, st)
    | some d =>
      match ghPutContents st
          (f.products.eraseP (fun p => jsParseInt idStr = some (p.id : Int)))
          (some f.rev) with
      | some st' => (⟨200, .deleted "Product deleted successfully" d⟩, st')
      | none => (⟨500, .failure "Failed to delete product"⟩, st)

/-! ## Lemmas about the string primitives -/

lemma isDigit_not_jsWhitespace {c : Char} (h : c.isDigit = true) :
    isJsWhitespace c = false := by
  by_contra hw
  rw [Bool.not_eq_false] at hw
  simp only [isJsWhitespace, Bool.or_eq_true, beq_iff_eq] at hw
  rcases hw with ((((((h1 | h1) | h1) | h1) | h1) | h1) | h1) | h1 <;> subst h1 <;>
    exact absurd h (by decide)

lemma dropWhile_ws_of_digits :
    ∀ {l : List Char}, (∀ c ∈ l, c.isDigit = true) → l.dropWhile isJsWhitespace = l
  | [], _ => rfl
  | c :: t, h => by
    rw [List.dropWhile_cons, isDigit_not_jsWhitespace (h c (List.mem_cons_self c t))]
    simp

lemma whatsappTest_chars {s : String} (h : whatsappTest s = true) :
    ∀ c ∈ s.data, c.isDigit = true := by
  unfold whatsappTest at h
  split at h
  next rest heq =>
    intro c hc
    rw [heq] at hc
    simp only [Bool.and_eq_true, beq_iff_eq, List.all_eq_true] at h
    simp only [List.mem_cons] at hc
    rcases hc with rfl | rfl | hc
    · decide
    · decide
    · exact h.2 c hc
  next => simp at h

lemma jsTrim_of_digits {s : String} (h : ∀ c ∈ s.data, c.isDigit = true) :
    jsTrim s = s := by
  unfold jsTrim
  rw [dropWhile_ws_of_digits h,
    dropWhile_ws_of_digits (fun c hc => h c (List.mem_reverse.mp hc)),
    List.reverse_reverse]

lemma whatsappTest_jsTrim {s : String} (h : whatsappTest s = true) :
    jsTrim s = s :=
  jsTrim_of_digits (whatsappTest_chars h)

/-! ## Case analyses of the create handlers -/

/-- Every outcome of the multipart create: a 400 with no write, a 500 with no
write (only reachable after the whatsapp check passed), or a 201 appending
exactly the built product. -/
lemma postProduct_cases (db : List Product) (req : ACreateReq) (freshId now : Nat) :
    (∃ msg, postProduct db req freshId now = (⟨400, .error msg⟩, db)) ∨
    (whatsappTest req.whatsapp = true ∧
      postProduct db req freshId now = (⟨500, .error "Failed to save product"⟩, db)) ∨
    (∃ f pv, req.file = some f ∧ jsParseInt req.price = some pv ∧
      missingFields req = false ∧ whatsappTest req.whatsapp = true ∧
      mongooseValid (buildProduct req f pv freshId now) = true ∧
      postProduct db req freshId now =
        (⟨201, .product (buildProduct req f pv freshId now)⟩,
         db ++ [buildProduct req f pv freshId now])) := by
  unfold postProduct
  split
  · exact .inl ⟨_, rfl⟩
  split
  · exact .inl ⟨_, rfl⟩
  split
  · exact .inl ⟨_, rfl⟩
  next h1 h2 h3 =>
    simp at h1 h3
    split
    next f pv heqf heqp =>
      split
      next hv =>
        exact .inr (.inr ⟨f, pv, heqf, heqp, h1, h3, hv, rfl⟩)
      next => exact .inr (.inl ⟨h3, rfl⟩)
    next => exact .inr (.inl ⟨h3, rfl⟩)
    next => exact .inr (.inl ⟨h3, rfl⟩)

/-- Every outcome of the base64 create. -/
lemma postProductBase64_cases (db : List Product) (req : B64Req)
    (upload : Option (String × String)) (freshId now : Nat) :
    (∃ msg, postProductBase64 db req upload freshId now = (⟨400, .error msg⟩, db)) ∨
    (whatsappTest req.whatsapp = true ∧
      postProductBase64 db req upload freshId now =
        (⟨500, .error "Failed to save product"⟩, db)) ∨
    (∃ url pid pv, upload = some (url, pid) ∧ jsParseInt req.price = some pv ∧
      missingFieldsB64 req = false ∧ whatsappTest req.whatsapp = true ∧
      mongooseValid (buildProductB64 req url pid pv freshId now) = true ∧
      postProductBase64 db req upload freshId now =
        (⟨201, .product (buildProductB64 req url pid pv freshId now)⟩,
         db ++ [buildProductB64 req url pid pv freshId now])) := by
  unfold postProductBase64
  split
  · exact .inl ⟨_, rfl⟩
  split
  · exact .inl ⟨_, rfl⟩
  next h1 h2 =>
    simp at h1 h2
    split
    next du dp url pid pv heqp =>
      split
      next hv =>
        exact .inr (.inr ⟨url, pid, pv, rfl, heqp, h1, h2, hv, rfl⟩)
      next => exact .inr (.inl ⟨h2, rfl⟩)
    next => exact .inr (.inl ⟨h2, rfl⟩)
    next => exact .inr (.inl ⟨h2, rfl⟩)

/-- Every outcome of the file-backed create: a 400 with no write, a rejected
conditional write answered 500 with no state change, or a 200 that prepends
the new product to what the read phase returned. -/
lemma fbCreate_cases (st : GhState) (req : FbCreateReq) (now : Nat) :
    (∃ msg, fbCreate st req now = (⟨400, .failure msg⟩, st)) ∨
    (whatsappTest req.whatsapp = true ∧
      fbCreate st req now = (⟨500, .failure "Failed to add product"⟩, st)) ∨
    (∃ st', whatsappTest req.whatsapp = true ∧ missingFieldsFb req = false ∧
      ghPutContents st (fbNewProduct req now :: (fbReadPhase st).1)
          (fbReadPhase st).2 = some st' ∧
      fbCreate st req now =
        (⟨200, .created "Product added successfully" (fbNewProduct req now)⟩, st')) := by
  unfold fbCreate fbWritePhase
  split
  · exact .inl ⟨_, rfl⟩
  split
  · exact .inl ⟨_, rfl⟩
  next h1 h2 =>
    simp at h1 h2
    split
    next st' heq => exact .inr (.inr ⟨st', h2, h1, heq, rfl⟩)
    next => exact .inr (.inl ⟨h2, rfl⟩)

/-! ## Concrete request fixtures used by the witnesses -/

/-- A multipart create with a malformed whatsapp number (`"123"`). -/
def reqBadA : ACreateReq := ⟨"a", "1", "b", "123", "Good", "c", some ⟨"u", "f1"⟩⟩

/-- A fully valid multipart create. -/
def reqGoodA : ACreateReq :=
  ⟨"Desk", "2000", "A", "919999999999", "Good", "x", some ⟨"u", "f1"⟩⟩

/-- A base64 create with a malformed whatsapp number. -/
def reqBadB : B64Req := ⟨"a", "1", "b", "123", "Good", "c", "data:img"⟩

/-- A fully valid base64 create. -/
def reqGoodB : B64Req := ⟨"Desk", "2000", "A", "919999999999", "Good", "x", "data:img"⟩

/-- A file-backed create with a malformed whatsapp number. -/
def reqBadF : FbCreateReq := ⟨"a", "1", "b", "123", "Good", "c", "http://img"⟩

/-- A fully valid file-backed create. -/
def reqGoodF : FbCreateReq :=
  ⟨"Desk", "2000", "A", "919999999999", "Good", "x", "http://img"⟩

/-! ## C1: whatsapp validation on every create path -/

/-- C1: on each of the three create paths (multipart, base64, file-backed), a
request whose whatsapp fails `^91\d{10}$` is answered 400 with the listing
store untouched, and every create that does return a listing returns one whose
whatsapp matches the pattern. -/
theorem create_whatsapp_validation (db : List Product) (req : ACreateReq)
    (breq : B64Req) (upload : Option (String × String)) (st : GhState)
    (freq : FbCreateReq) (freshId now fnow : Nat) :
    (whatsappTest req.whatsapp = false →
      (postProduct db req freshId now).1.status = 400 ∧
      (postProduct db req freshId now).2 = db) ∧
    (∀ p, (postProduct db req freshId now).1.body = .product p →
      whatsappTest p.whatsapp = true) ∧
    (whatsappTest breq.whatsapp = false →
      (postProductBase64 db breq upload freshId now).1.status = 400 ∧
      (postProductBase64 db breq upload freshId now).2 = db) ∧
    (∀ p, (postProductBase64 db breq upload freshId now).1.body = .product p →
      whatsappTest p.whatsapp = true) ∧
    (whatsappTest freq.whatsapp = false →
      (fbCreate st freq fnow).1.status = 400 ∧ (fbCreate st freq fnow).2 = st) ∧
    (∀ msg p, (fbCreate st freq fnow).1.body = .created msg p →
      whatsappTest p.whatsapp = true) := by
  refine ⟨?_, ?_, ?_, ?_, ?_, ?_⟩
  · intro h
    rcases postProduct_cases db req freshId now with ⟨msg, he⟩ | ⟨hw, he⟩ |
      ⟨f, pv, _, _, _, hw, _, he⟩
    · rw [he]; exact ⟨rfl, rfl⟩
    · simp [hw] at h
    · simp [hw] at h
  · intro p hp
    rcases postProduct_cases db req freshId now with ⟨msg, he⟩ | ⟨hw, he⟩ |
      ⟨f, pv, hf, hpv, hm, hw, hv, he⟩
    · rw [he] at hp; simp at hp
    · rw [he] at hp; simp at hp
    · rw [he] at hp
      simp only [ABody.product.injEq] at hp
      subst hp
      simp only [buildProduct]
      rw [whatsappTest_jsTrim hw]
      exact hw
  · intro h
    rcases postProductBase64_cases db breq upload freshId now with ⟨msg, he⟩ |
      ⟨hw, he⟩ | ⟨url, pid, pv, _, _, _, hw, _, he⟩
    · rw [he]; exact ⟨rfl, rfl⟩
    · simp [hw] at h
    · simp [hw] at h
  · intro p hp
    rcases postProductBase64_cases db breq upload freshId now with ⟨msg, he⟩ |
      ⟨hw, he⟩ | ⟨url, pid, pv, hu, hpv, hm, hw, hv, he⟩
    · rw [he] at hp; simp at hp
    · rw [he] at hp; simp at hp
    · rw [he] at hp
      simp only [ABody.product.injEq] at hp
      subst hp
      simp only [buildProductB64]
      rw [whatsappTest_jsTrim hw]
      exact hw
  · intro h
    rcases fbCreate_cases st freq fnow with ⟨msg, he⟩ | ⟨hw, he⟩ |
      ⟨st', hw, _, _, he⟩
    · rw [he]; exact ⟨rfl, rfl⟩
    · simp [hw] at h
    · simp [hw] at h
  · intro msg p hp
    rcases fbCreate_cases st freq fnow with ⟨m, he⟩ | ⟨hw, he⟩ |
      ⟨st', hw, hm, hput, he⟩
    · rw [he] at hp; simp at hp
    · rw [he] at hp; simp at hp
    · rw [he] at hp
      simp only [BBody.created.injEq] at hp
      obtain ⟨-, hp2⟩ := hp
      subst hp2
      simp only [fbNewProduct]
      rw [whatsappTest_jsTrim hw]
      exact hw

/-- Witness for C1: the malformed number `"123"` is rejected with 400 and no
write on all three paths, and concrete successful creates return listings
whose whatsapp matches the pattern. -/
theorem create_whatsapp_validation_witness :
    ((postProduct [] reqBadA 7 5).1.status = 400 ∧ (postProduct [] reqBadA 7 5).2 = []) ∧
    ((postProductBase64 [] reqBadB (some ("u", "p1")) 7 5).1.status = 400 ∧
      (postProductBase64 [] reqBadB (some ("u", "p1")) 7 5).2 = []) ∧
    ((fbCreate (some ⟨[], 0⟩) reqBadF 42).1.status = 400 ∧
      (fbCreate (some ⟨[], 0⟩) reqBadF 42).2 = some ⟨[], 0⟩) ∧
    whatsappTest (buildProduct reqGoodA ⟨"u", "f1"⟩ 2000 7 5).whatsapp = true ∧
    whatsappTest (buildProductB64 reqGoodB "u" "p1" 2000 7 5).whatsapp = true ∧
    whatsappTest (fbNewProduct reqGoodF 42).whatsapp = true :=
  ⟨(create_whatsapp_validation [] reqBadA reqBadB (some ("u", "p1")) (some ⟨[], 0⟩)
      reqBadF 7 5 42).1 (by decide),
   (create_whatsapp_validation [] reqBadA reqBadB (some ("u", "p1")) (some ⟨[], 0⟩)
      reqBadF 7 5 42).2.2.1 (by decide),
   (create_whatsapp_validation [] reqBadA reqBadB (some ("u", "p1")) (some ⟨[], 0⟩)
      reqBadF 7 5 42).2.2.2.2.1 (by decide),
   (create_whatsapp_validation [] reqGoodA reqGoodB (some ("u", "p1")) (some ⟨[], 0⟩)
      reqGoodF 7 5 42).2.1 _ (by decide),
   (create_whatsapp_validation [] reqGoodA reqGoodB (some ("u", "p1")) (some ⟨[], 0⟩)
      reqGoodF 7 5 42).2.2.2.1 _ (by decide),
   (create_whatsapp_validation [] reqGoodA reqGoodB (some ("u", "p1")) (some ⟨[], 0⟩)
      reqGoodF 7 5 42).2.2.2.2.2 "Product added successfully" _ (by decide)⟩

/-! ## C2: create-then-fetch round trip -/

/-- C2: a multipart create that passes validation and saves appends exactly
the built listing, and fetching the generated id returns that listing, whose
fields are the trimmed inputs, the parsed price, the untouched condition, and
the generated id and creation date. -/
theorem create_roundtrip (db : List Product) (req : ACreateReq) (f : AFile)
    (pv : Int) (freshId now : Nat)
    (hm : missingFields req = false) (hf : req.file = some f)
    (hw : whatsappTest req.whatsapp = true)
    (hpv : jsParseInt req.price = some pv)
    (hv : mongooseValid (buildProduct req f pv freshId now) = true)
    (hfresh : ∀ q ∈ db, q.id ≠ freshId) :
    postProduct db req freshId now =
      (⟨201, .product (buildProduct req f pv freshId now)⟩,
       db ++ [buildProduct req f pv freshId now]) ∧
    getProductById (postProduct db req freshId now).2 freshId =
      ⟨200, .product (buildProduct req f pv freshId now)⟩ ∧
    (buildProduct req f pv freshId now).name = jsTrim req.name ∧
    (buildProduct req f pv freshId now).price = pv ∧
    (buildProduct req f pv freshId now).seller = jsTrim req.seller ∧
    (buildProduct req f pv freshId now).whatsapp = jsTrim req.whatsapp ∧
    (buildProduct req f pv freshId now).condition = req.condition ∧
    (buildProduct req f pv freshId now).description = jsTrim req.description ∧
    (buildProduct req f pv freshId now).id = freshId ∧
    (buildProduct req f pv freshId now).dateAdded = now := by
  have h1 : postProduct db req freshId now =
      (⟨201, .product (buildProduct req f pv freshId now)⟩,
       db ++ [buildProduct req f pv freshId now]) := by
    simp [postProduct, hm, hf, hw, hpv, hv]
  have hnone : db.find? (fun q => q.id = freshId) = none := by
    rw [List.find?_eq_none]
    intro x hx
    simpa using hfresh x hx
  refine ⟨h1, ?_, rfl, rfl, rfl, rfl, rfl, rfl, rfl, rfl⟩
  rw [h1]
  unfold getProductById
  rw [List.find?_append, hnone]
  simp [buildProduct]

/-- Witness for C2: the spec's own example, `{name: "Desk", price: 2000,
seller: "A", whatsapp: "919999999999", condition: "Good", description: "x"}`
with an image, created into an empty store under id 7 at instant 5. -/
theorem create_roundtrip_witness :
    postProduct [] reqGoodA 7 5 =
      (⟨201, .product (buildProduct reqGoodA ⟨"u", "f1"⟩ 2000 7 5)⟩,
       [] ++ [buildProduct reqGoodA ⟨"u", "f1"⟩ 2000 7 5]) ∧
    getProductById (postProduct [] reqGoodA 7 5).2 7 =
      ⟨200, .product (buildProduct reqGoodA ⟨"u", "f1"⟩ 2000 7 5)⟩ ∧
    (buildProduct reqGoodA ⟨"u", "f1"⟩ 2000 7 5).name = jsTrim reqGoodA.name ∧
    (buildProduct reqGoodA ⟨"u", "f1"⟩ 2000 7 5).price = 2000 ∧
    (buildProduct reqGoodA ⟨"u", "f1"⟩ 2000 7 5).seller = jsTrim reqGoodA.seller ∧
    (buildProduct reqGoodA ⟨"u", "f1"⟩ 2000 7 5).whatsapp = jsTrim reqGoodA.whatsapp ∧
    (buildProduct reqGoodA ⟨"u", "f1"⟩ 2000 7 5).condition = reqGoodA.condition ∧
    (buildProduct reqGoodA ⟨"u", "f1"⟩ 2000 7 5).description = jsTrim reqGoodA.description ∧
    (buildProduct reqGoodA ⟨"u", "f1"⟩ 2000 7 5).id = 7 ∧
    (buildProduct reqGoodA ⟨"u", "f1"⟩ 2000 7 5).dateAdded = 5 :=
  create_roundtrip [] reqGoodA ⟨"u", "f1"⟩ 2000 7 5 (by decide) rfl (by decide)
    (by decide) (by decide) (by simp)

/-! ## C3: query results are ordered per the sort key -/

/-- The listing query always returns its results sorted by the relation the
sort key selects. -/
lemma queryResults_sorted (db : List Product) (q : AQuery) :
    (queryResults db q).Sorted (keyRel (sortOption q.sort)) :=
  List.sorted_insertionSort _ _

/-- C3: `sort=price_low` yields prices non-decreasing, `price_high` prices
non-increasing, `name` names ascending, and any other or absent sort value
yields creation times non-increasing. -/
theorem queryResults_sort_spec (db : List Product) (q : AQuery) :
    (q.sort = some "price_low" →
      (queryResults db q).Sorted (fun a b => a.price ≤ b.price)) ∧
    (q.sort = some "price_high" →
      (queryResults db q).Sorted (fun a b => b.price ≤ a.price)) ∧
    (q.sort = some "name" →
      (queryResults db q).Sorted (fun a b => a.name ≤ b.name)) ∧
    (q.sort ≠ some "price_low" → q.sort ≠ some "price_high" →
      q.sort ≠ some "name" →
      (queryResults db q).Sorted (fun a b => b.dateAdded ≤ a.dateAdded)) := by
  refine ⟨?_, ?_, ?_, ?_⟩
  · intro h
    have hk : sortOption q.sort = .priceAsc := by simp [sortOption, h]
    have := queryResults_sorted db q
    rw [hk] at this
    exact this
  · intro h
    have hk : sortOption q.sort = .priceDesc := by simp [sortOption, h]
    have := queryResults_sorted db q
    rw [hk] at this
    exact this
  · intro h
    have hk : sortOption q.sort = .nameAsc := by simp [sortOption, h]
    have := queryResults_sorted db q
    rw [hk] at this
    exact this
  · intro h1 h2 h3
    have hk : sortOption q.sort = .dateDesc := by simp [sortOption, h1, h2, h3]
    have := queryResults_sorted db q
    rw [hk] at this
    exact this

/-- Two active fixtures used by the sorting and stats witnesses. -/
def prodX : Product :=
  ⟨1, "Zeta", 30, "A", "919999999990", "Good", "d1", "u1", some "p1", 10, true⟩

/-- Second fixture, cheaper, newer, alphabetically earlier. -/
def prodY : Product :=
  ⟨2, "Alpha", 10, "B", "919999999991", "Fair", "d2", "u2", some "p2", 20, true⟩

/-- Witness for C3: a two-element store queried under each of the four sort
keys. -/
theorem queryResults_sort_spec_witness :
    (queryResults [prodX, prodY] ⟨none, none, none, none, some "price_low"⟩).Sorted
      (fun a b => a.price ≤ b.price) ∧
    (queryResults [prodX, prodY] ⟨none, none, none, none, some "price_high"⟩).Sorted
      (fun a b => b.price ≤ a.price) ∧
    (queryResults [prodX, prodY] ⟨none, none, none, none, some "name"⟩).Sorted
      (fun a b => a.name ≤ b.name) ∧
    (queryResults [prodX, prodY] ⟨none, none, none, none, none⟩).Sorted
      (fun a b => b.dateAdded ≤ a.dateAdded) :=
  ⟨(queryResults_sort_spec [prodX, prodY] ⟨none, none, none, none, some "price_low"⟩).1 rfl,
   (queryResults_sort_spec [prodX, prodY] ⟨none, none, none, none, some "price_high"⟩).2.1 rfl,
   (queryResults_sort_spec [prodX, prodY] ⟨none, none, none, none, some "name"⟩).2.2.1 rfl,
   (queryResults_sort_spec [prodX, prodY] ⟨none, none, none, none, none⟩).2.2.2
     (by decide) (by decide) (by decide)⟩

/-! ## C4: deleting a nonexistent id -/

/-- C4: in both backends, when the requested identifier matches no stored
listing, delete answers 404, and the store (collection, respectively the
backing file together with its version) is exactly what it was — no listing
removed, no image-deletion reached, no file write attempted. -/
theorem delete_notfound (db : List Product) (id : Nat) (f : GhFile)
    (idStr : String)
    (hA : ∀ p ∈ db, p.id ≠ id)
    (hB : ∀ p ∈ f.products, jsParseInt idStr ≠ some (p.id : Int)) :
    deleteProduct db id = (⟨404, .error "Product not found"⟩, db) ∧
    fbDelete (some f) idStr = (⟨404, .failure "Product not found"⟩, some f) := by
  have hnA : db.find? (fun p => p.id = id) = none := by
    rw [List.find?_eq_none]
    intro x hx
    simpa using hA x hx
  have hnB : f.products.find? (fun p => jsParseInt idStr = some (p.id : Int)) = none := by
    rw [List.find?_eq_none]
    intro x hx
    simpa using hB x hx
  constructor
  · simp [deleteProduct, hnA]
  · simp [fbDelete, hnB]

/-- An entry of the file-backed store used by witnesses. -/
def fbProdX : FbProduct :=
  ⟨100, "Desk", some 2000, "A", "919999999999", "Good", "x", "u", 50⟩

/-- Witness for C4: id 99 is absent from both one-element stores. -/
theorem delete_notfound_witness :
    deleteProduct [prodX] 99 = (⟨404, .error "Product not found"⟩, [prodX]) ∧
    fbDelete (some ⟨[fbProdX], 3⟩) "99" =
      (⟨404, .failure "Product not found"⟩, some ⟨[fbProdX], 3⟩) :=
  delete_notfound [prodX] 99 ⟨[fbProdX], 3⟩ "99" (by decide) (by decide)

/-! ## C5: dateAdded across updates -/

/-- Counterexample to C5 as stated: a `PUT` whose body carries a `dateAdded`
field overwrites the creation date — `findByIdAndUpdate` `$set`s every
supplied path and the schema declares no immutability for `dateAdded`. -/
theorem dateAdded_put_counterexample :
    (putProduct [prodX] 1
        ⟨none, none, none, none, none, none, none, none, some 99, none⟩).2 =
      [{ prodX with dateAdded := 99 }] ∧
    prodX.dateAdded = 10 ∧
    ({ prodX with dateAdded := 99 } : Product).dateAdded = 99 ∧ (99 : Nat) ≠ 10 := by
  decide

/-- C5 (amended): a `PUT` whose body does not contain `dateAdded` leaves every
stored listing's `dateAdded` (and id) what it was, so the creation date
persists across all such updates. -/
theorem dateAdded_immutable_without_field (db : List Product) (id : Nat)
    (b : UpdateBody) (hb : b.dateAdded = none) :
    ∀ p' ∈ (putProduct db id b).2,
      ∃ p ∈ db, p.id = p'.id ∧ p.dateAdded = p'.dateAdded := by
  intro p' hp'
  unfold putProduct at hp'
  split at hp'
  · exact ⟨p', hp', rfl, rfl⟩
  · split at hp'
    · simp only [List.mem_map] at hp'
      obtain ⟨q, hq, heq⟩ := hp'
      by_cases hid : q.id = id
      · rw [if_pos hid] at heq
        refine ⟨q, hq, ?_, ?_⟩
        · rw [← heq]
          simp [applyUpdate]
        · rw [← heq]
          simp [applyUpdate, hb]
      · rw [if_neg hid] at heq
        subst heq
        exact ⟨q, hq, rfl, rfl⟩
    · exact ⟨p', hp', rfl, rfl⟩

/-- Witness for C5 (amended): a name-only update of the one-element store
leaves id and dateAdded of the updated record unchanged. -/
theorem dateAdded_immutable_without_field_witness :
    ∃ p ∈ [prodX], p.id = ({ prodX with name := "New" } : Product).id ∧
      p.dateAdded = ({ prodX with name := "New" } : Product).dateAdded :=
  dateAdded_immutable_without_field [prodX] 1
    ⟨some "New", none, none, none, none, none, none, none, none, none⟩ rfl
    { prodX with name := "New" } (by decide)

/-! ## C6: the stats endpoint -/

/-- C6 is a code bug: the handler computes
`await Product.distinct('seller').length`, reading `.length` off the
unawaited Query object, which is `undefined` (`none` here) — not the distinct
seller count.  On a store with two active products by two distinct sellers,
totalProducts and averagePrice are as specified, but totalSellers is
undefined instead of 2. -/
theorem stats_totalSellers_undefined :
    getStats [prodX, prodY] = ⟨200, .stats 2 none 20⟩ ∧
    distinctSellerCount [prodX, prodY] = 2 ∧
    (none : Option Nat) ≠ some (distinctSellerCount [prodX, prodY]) := by
  refine ⟨?_, by decide, by decide⟩
  simp [getStats, prodX, prodY]
  norm_num

/-! ## C7: validation order of the multipart create -/

/-- Counterexample to C7 as stated: with every text field present, a
malformed whatsapp, and no image, the handler answers with the *image* error —
the image presence check runs before the phone-number format check. -/
theorem postProduct_order_counterexample :
    missingFields ⟨"a", "1", "b", "123", "Good", "c", none⟩ = false ∧
    whatsappTest "123" = false ∧
    postProduct [] ⟨"a", "1", "b", "123", "Good", "c", none⟩ 0 0 =
      (⟨400, .error "Product image is required"⟩, []) ∧
    ABody.error "Product image is required" ≠
      ABody.error "Invalid WhatsApp number format" := by
  decide

/-- C7 (amended): the multipart create validates presence of the text fields,
then image presence, then the phone-number format; each failure is answered
with the 400 error naming that condition, and in every validation-failure
case the collection is untouched. -/
theorem postProduct_validation_order (db : List Product) (req : ACreateReq)
    (freshId now : Nat) :
    (missingFields req = true →
      postProduct db req freshId now = (⟨400, .error "All fields are required"⟩, db)) ∧
    (missingFields req = false → req.file = none →
      postProduct db req freshId now =
        (⟨400, .error "Product image is required"⟩, db)) ∧
    (∀ f, missingFields req = false → req.file = some f →
      whatsappTest req.whatsapp = false →
      postProduct db req freshId now =
        (⟨400, .error "Invalid WhatsApp number format"⟩, db)) ∧
    ((missingFields req = true ∨ req.file = none ∨
        whatsappTest req.whatsapp = false) →
      (postProduct db req freshId now).1.status = 400 ∧
      (postProduct db req freshId now).2 = db) := by
  have t1 : missingFields req = true →
      postProduct db req freshId now = (⟨400, .error "All fields are required"⟩, db) := by
    intro h
    simp [postProduct, h]
  have t2 : missingFields req = false → req.file = none →
      postProduct db req freshId now =
        (⟨400, .error "Product image is required"⟩, db) := by
    intro hm hf
    simp [postProduct, hm, hf]
  have t3 : ∀ f, missingFields req = false → req.file = some f →
      whatsappTest req.whatsapp = false →
      postProduct db req freshId now =
        (⟨400, .error "Invalid WhatsApp number format"⟩, db) := by
    intro f hm hf hw
    simp [postProduct, hm, hf, hw]
  refine ⟨t1, t2, t3, ?_⟩
  intro h
  by_cases hm : missingFields req = true
  · rw [t1 hm]
    exact ⟨rfl, rfl⟩
  · have hm' : missingFields req = false := by simpa using hm
    cases hfile : req.file with
    | none =>
      rw [t2 hm' hfile]
      exact ⟨rfl, rfl⟩
    | some f =>
      rcases h with h | h | h
      · exact absurd h hm
      · rw [hfile] at h
        cases h
      · rw [t3 f hm' hfile h]
        exact ⟨rfl, rfl⟩

/-- Witness for C7 (amended): one concrete request per failing condition. -/
theorem postProduct_validation_order_witness :
    postProduct [] ⟨"", "1", "b", "919999999999", "Good", "c", some ⟨"u", "f1"⟩⟩ 0 0 =
      (⟨400, .error "All fields are required"⟩, []) ∧
    postProduct [] ⟨"a", "1", "b", "919999999999", "Good", "c", none⟩ 0 0 =
      (⟨400, .error "Product image is required"⟩, []) ∧
    postProduct [] reqBadA 0 0 =
      (⟨400, .error "Invalid WhatsApp number format"⟩, []) ∧
    ((postProduct [] reqBadA 0 0).1.status = 400 ∧ (postProduct [] reqBadA 0 0).2 = []) :=
  ⟨(postProduct_validation_order []
      ⟨"", "1", "b", "919999999999", "Good", "c", some ⟨"u", "f1"⟩⟩ 0 0).1 (by decide),
   (postProduct_validation_order []
      ⟨"a", "1", "b", "919999999999", "Good", "c", none⟩ 0 0).2.1 (by decide) rfl,
   (postProduct_validation_order [] reqBadA 0 0).2.2.1 ⟨"u", "f1"⟩ (by decide) rfl
     (by decide),
   (postProduct_validation_order [] reqBadA 0 0).2.2.2 (.inr (.inr (by decide)))⟩

/-! ## C8: conditional writes and racing writers -/

/-- C8: both writers read the same file state (content and version token);
writer 1's conditional write succeeds and bumps the version, so writer 2's
write, conditioned on the stale token, is rejected — answered as a plain 500
failure (the handler performs exactly this one write, no retry) — and the file
keeps writer 1's content, writer 1's new product prepended. -/
theorem fb_stale_write_rejected (st0 : GhState) (p1 p2 : FbProduct) :
    (fbWritePhase st0 (fbReadPhase st0).1 (fbReadPhase st0).2 p1).1 =
      ⟨200, .created "Product added successfully" p1⟩ ∧
    (fbWritePhase (fbWritePhase st0 (fbReadPhase st0).1 (fbReadPhase st0).2 p1).2
        (fbReadPhase st0).1 (fbReadPhase st0).2 p2).1 =
      ⟨500, .failure "Failed to add product"⟩ ∧
    (fbWritePhase (fbWritePhase st0 (fbReadPhase st0).1 (fbReadPhase st0).2 p1).2
        (fbReadPhase st0).1 (fbReadPhase st0).2 p2).2 =
      (fbWritePhase st0 (fbReadPhase st0).1 (fbReadPhase st0).2 p1).2 ∧
    ∃ f1, (fbWritePhase st0 (fbReadPhase st0).1 (fbReadPhase st0).2 p1).2 = some f1 ∧
      f1.products = p1 :: (fbReadPhase st0).1 := by
  cases st0 with
  | none =>
    exact ⟨rfl, rfl, rfl, ⟨⟨[p1], 0⟩, rfl, rfl⟩⟩
  | some f =>
    have hne : f.rev ≠ f.rev + 1 := by omega
    have h1 : fbWritePhase (some f) (fbReadPhase (some f)).1
        (fbReadPhase (some f)).2 p1 =
        (⟨200, .created "Product added successfully" p1⟩,
         some ⟨p1 :: f.products, f.rev + 1⟩) := by
      simp [fbWritePhase, fbReadPhase, ghPutContents]
    have h2 : fbWritePhase (some ⟨p1 :: f.products, f.rev + 1⟩)
        (fbReadPhase (some f)).1 (fbReadPhase (some f)).2 p2 =
        (⟨500, .failure "Failed to add product"⟩,
         some ⟨p1 :: f.products, f.rev + 1⟩) := by
      simp [fbWritePhase, fbReadPhase, ghPutContents, hne]
    rw [h1, h2]
    exact ⟨rfl, rfl, rfl, ⟨⟨p1 :: f.products, f.rev + 1⟩, rfl, rfl⟩⟩

/-! ## C9: status of successful creates -/

/-- Counterexample to C9 as stated: a successful file-backed create responds
`res.json(...)`, i.e. status 200, not 201. -/
theorem fb_create_status_counterexample :
    (fbCreate (some ⟨[], 0⟩) reqGoodF 42).1 =
      ⟨200, .created "Product added successfully" (fbNewProduct reqGoodF 42)⟩ ∧
    (200 : Nat) ≠ 201 := by
  decide

/-- C9 (amended): the two Backend A creates answer every success with 201 and
the created listing in the body; the file-backed create answers success with
the created listing but status 200. -/
theorem create_success_status (db : List Product) (req : ACreateReq)
    (breq : B64Req) (upload : Option (String × String)) (st : GhState)
    (freq : FbCreateReq) (freshId now fnow : Nat) :
    (∀ p, (postProduct db req freshId now).1.body = .product p →
      (postProduct db req freshId now).1.status = 201) ∧
    (∀ p, (postProductBase64 db breq upload freshId now).1.body = .product p →
      (postProductBase64 db breq upload freshId now).1.status = 201) ∧
    (∀ msg p, (fbCreate st freq fnow).1.body = .created msg p →
      (fbCreate st freq fnow).1.status = 200) := by
  refine ⟨?_, ?_, ?_⟩
  · intro p hp
    rcases postProduct_cases db req freshId now with ⟨msg, he⟩ | ⟨hw, he⟩ |
      ⟨f, pv, _, _, _, _, _, he⟩ <;> rw [he] at hp ⊢
    all_goals first | rfl | simp at hp
  · intro p hp
    rcases postProductBase64_cases db breq upload freshId now with ⟨msg, he⟩ |
      ⟨hw, he⟩ | ⟨url, pid, pv, _, _, _, _, _, he⟩ <;> rw [he] at hp ⊢
    all_goals first | rfl | simp at hp
  · intro msg p hp
    rcases fbCreate_cases st freq fnow with ⟨m, he⟩ | ⟨hw, he⟩ |
      ⟨st', _, _, _, he⟩ <;> rw [he] at hp ⊢
    all_goals first | rfl | simp at hp

/-- Witness for C9 (amended): concrete successful creates on each path. -/
theorem create_success_status_witness :
    (postProduct [] reqGoodA 7 5).1.status = 201 ∧
    (postProductBase64 [] reqGoodB (some ("u", "p1")) 7 5).1.status = 201 ∧
    (fbCreate (some ⟨[], 0⟩) reqGoodF 42).1.status = 200 :=
  ⟨(create_success_status [] reqGoodA reqGoodB (some ("u", "p1")) (some ⟨[], 0⟩)
      reqGoodF 7 5 42).1 (buildProduct reqGoodA ⟨"u", "f1"⟩ 2000 7 5) (by decide),
   (create_success_status [] reqGoodA reqGoodB (some ("u", "p1")) (some ⟨[], 0⟩)
      reqGoodF 7 5 42).2.1 (buildProductB64 reqGoodB "u" "p1" 2000 7 5) (by decide),
   (create_success_status [] reqGoodA reqGoodB (some ("u", "p1")) (some ⟨[], 0⟩)
      reqGoodF 7 5 42).2.2 "Product added successfully" (fbNewProduct reqGoodF 42)
     (by decide)⟩

/-! ## C10: demo fallback of the file-backed listing read -/

/-- `success` flag of a Backend B response body. -/
def bbodySuccess : BBody → Bool
  | .failure _ => false
  | _ => true

/-- C10: when reading `products.json` fails (the file does not exist), the
file-backed `GET /api/products` still answers 200 with `success = true` and
exactly the three built-in demo listings tagged `source = "demo"`. -/
theorem fbGet_demo_fallback (now : Nat) :
    fbGetProducts none now = ⟨200, .listing (demoProducts now) "demo"⟩ ∧
    (fbGetProducts none now).status = 200 ∧
    bbodySuccess (fbGetProducts none now).body = true ∧
    (demoProducts now).length = 3 :=
  ⟨rfl, rfl, rfl, rfl⟩
